import Mathlib

/-!
Shallow embedding of `src/glscopeclient/Preference.h` from scopehal-apps:
a move-only tagged value cell (`Preference`) holding one of four payload
kinds (Boolean, String, Real, Color) together with metadata, plus the
fluent `PreferenceBuilder`.

The header contains the five typed constructors inline; the bodies of the
accessors, setters, `MoveFrom`/`CleanUp` and the builder methods live in a
`Preference.cpp` that is not part of the sources, so those operations are
modelled from the specification (each such definition carries a doc
comment starting `Modelled from the spec:`).

Everything lives in the `glsc` namespace to avoid clashing with core
names such as `Unit`.
-/

namespace glsc

/-- `enum class PreferenceType` (Preference.h, lines 54-61). -/
inductive PreferenceType where
  | Boolean
  | String
  | Real
  | Color
  | None
deriving DecidableEq

/-- `impl::Color` (Preference.h, lines 67-76): a plain triple of unsigned
16-bit channel values. No arithmetic is ever performed on the channels in
this core, so they are modelled as plain naturals. -/
structure Color where
  m_r : Nat
  m_g : Nat
  m_b : Nat
deriving DecidableEq

/-- Modelled from the spec: the unit-type identifiers of the external
`Unit` collaborator (`Unit.h` is not among the sources). Only the default
`UNIT_COUNTS` ("counts/dimensionless") matters to this core; a few other
representative unit types are included so that non-default units exist. -/
inductive UnitType where
  | UNIT_COUNTS
  | UNIT_VOLTS
  | UNIT_SECONDS
  | UNIT_HZ
deriving DecidableEq

/-- Modelled from the spec: the external `Unit` descriptor, consumed as an
opaque wrapper around a `UnitType` (spec section 6). -/
structure UnitDesc where
  type : UnitType
deriving DecidableEq

/-- The payload actually alive in the cell's storage region. In the C++
source the storage is a raw `aligned_union` region reinterpreted according
to `m_type`; here the live object is an explicit sum, with `VNone`
standing for storage holding no live object (the moved-from state).
The `double` payload is modelled as an exact rational: no claim in scope
depends on floating-point rounding, every operation of the core merely
stores and reloads the value bit-for-bit. -/
inductive PreferenceValue where
  | VBool (b : Bool)
  | VString (s : String)
  | VReal (r : ℚ)
  | VColor (c : Color)
  | VNone
deriving DecidableEq

/-- The toolkit-native color (`Gdk::Color`): `get_red`/`get_green`/
`get_blue` return 16-bit channel values. -/
structure GdkColor where
  red : Nat
  green : Nat
  blue : Nat
deriving DecidableEq

/-- The tagged value cell (Preference.h, lines 79-206, fields 198-205).
`m_type` is the discriminant, `m_value` the storage region. -/
structure Preference where
  m_identifier : String
  m_label : String
  m_description : String
  m_type : PreferenceType
  m_value : PreferenceValue
  m_isVisible : Bool := true
  m_unit : UnitDesc := ⟨UnitType.UNIT_COUNTS⟩
deriving DecidableEq

namespace Preference

/-- Bool constructor (Preference.h, lines 91-96): sets kind `Boolean` and
placement-constructs the `bool` payload. -/
def mkBool (identifier label description : String) (defaultValue : Bool) : Preference :=
  { m_identifier := identifier, m_label := label, m_description := description,
    m_type := PreferenceType.Boolean, m_value := PreferenceValue.VBool defaultValue }

/-- Owned-string constructor (Preference.h, lines 98-103): sets kind
`String` and moves the owned text into the storage region. -/
def mkString (identifier label description : String) (defaultValue : String) : Preference :=
  { m_identifier := identifier, m_label := label, m_description := description,
    m_type := PreferenceType.String, m_value := PreferenceValue.VString defaultValue }

/-- Borrowed `const char*` constructor (Preference.h, lines 105-110): sets
kind `String` and copies the borrowed text into a fresh owned string. The
argument is the character content of the literal. -/
def mkCString (identifier label description : String) (defaultValue : String) : Preference :=
  { m_identifier := identifier, m_label := label, m_description := description,
    m_type := PreferenceType.String, m_value := PreferenceValue.VString defaultValue }

/-- Real constructor (Preference.h, lines 112-117): sets kind `Real` and
placement-constructs the `double` payload. -/
def mkReal (identifier label description : String) (defaultValue : ℚ) : Preference :=
  { m_identifier := identifier, m_label := label, m_description := description,
    m_type := PreferenceType.Real, m_value := PreferenceValue.VReal defaultValue }

/-- Color constructor (Preference.h, lines 119-124): sets kind `Color` and
placement-constructs `impl::Color(v.get_red(), v.get_green(), v.get_blue())`. -/
def mkColor (identifier label description : String) (defaultValue : GdkColor) : Preference :=
  { m_identifier := identifier, m_label := label, m_description := description,
    m_type := PreferenceType.Color,
    m_value := PreferenceValue.VColor ⟨defaultValue.red, defaultValue.green, defaultValue.blue⟩ }

/-- Modelled from the spec: `GetType` (declared Preference.h line 157,
body in the missing Preference.cpp) returns the active kind. -/
def GetType (p : Preference) : PreferenceType := p.m_type

/-- Modelled from the spec: `GetIdentifier` returns the immutable
identifier string (body in the missing Preference.cpp). -/
def GetIdentifier (p : Preference) : String := p.m_identifier

/-- Modelled from the spec: `GetLabel` returns the immutable label string
(body in the missing Preference.cpp). -/
def GetLabel (p : Preference) : String := p.m_label

/-- Modelled from the spec: `GetDescription` returns the immutable
description string (body in the missing Preference.cpp). -/
def GetDescription (p : Preference) : String := p.m_description

/-- Modelled from the spec: `GetIsVisible` returns the visibility flag
(body in the missing Preference.cpp). -/
def GetIsVisible (p : Preference) : Bool := p.m_isVisible

/-- Modelled from the spec: `GetBool` (body in the missing Preference.cpp)
fails with a fatal type-contract violation unless the kind is `Boolean`,
otherwise reads the live `bool` payload. The fatal path is `none`. -/
def GetBool (p : Preference) : Option Bool :=
  match p.m_type, p.m_value with
  | PreferenceType.Boolean, PreferenceValue.VBool b => some b
  | _, _ => none

/-- Modelled from the spec: `GetReal` (body in the missing Preference.cpp)
fails fatally unless the kind is `Real`, otherwise reads the live `double`
payload. The fatal path is `none`. -/
def GetReal (p : Preference) : Option ℚ :=
  match p.m_type, p.m_value with
  | PreferenceType.Real, PreferenceValue.VReal r => some r
  | _, _ => none

/-- Modelled from the spec: `GetString` (body in the missing
Preference.cpp) fails fatally unless the kind is `String`, otherwise reads
the live string payload. The fatal path is `none`. -/
def GetString (p : Preference) : Option String :=
  match p.m_type, p.m_value with
  | PreferenceType.String, PreferenceValue.VString s => some s
  | _, _ => none

/-- Modelled from the spec: `GetColorRaw` (body in the missing
Preference.cpp) fails fatally unless the kind is `Color`, otherwise reads
the internal 16-bit-channel triple. The fatal path is `none`. -/
def GetColorRaw (p : Preference) : Option Color :=
  match p.m_type, p.m_value with
  | PreferenceType.Color, PreferenceValue.VColor c => some c
  | _, _ => none

/-- Conversion from the internal triple to the toolkit-native color, the
only point where the external representation is touched (spec section 6). -/
def Color.toGdk (c : Color) : GdkColor := ⟨c.m_r, c.m_g, c.m_b⟩

/-- Modelled from the spec: `GetColor` (body in the missing
Preference.cpp) is `GetColorRaw` converted to the toolkit-native color
representation, with the same fatal path on kind mismatch. -/
def GetColor (p : Preference) : Option GdkColor :=
  Option.map Color.toGdk p.GetColorRaw

/-- Modelled from the spec: `SetBool` (body in the missing Preference.cpp)
requires kind `Boolean` (fatal otherwise, modelled as `none`), destroys
the old payload and constructs the new value of the same kind. -/
def SetBool (p : Preference) (value : Bool) : Option Preference :=
  if p.m_type = PreferenceType.Boolean then
    some { p with m_value := PreferenceValue.VBool value }
  else none

/-- Modelled from the spec: `SetReal` (body in the missing Preference.cpp)
requires kind `Real` (fatal otherwise), replacing only the payload. -/
def SetReal (p : Preference) (value : ℚ) : Option Preference :=
  if p.m_type = PreferenceType.Real then
    some { p with m_value := PreferenceValue.VReal value }
  else none

/-- Modelled from the spec: `SetString` (body in the missing
Preference.cpp) requires kind `String` (fatal otherwise), replacing only
the payload. -/
def SetString (p : Preference) (value : String) : Option Preference :=
  if p.m_type = PreferenceType.String then
    some { p with m_value := PreferenceValue.VString value }
  else none

/-- Modelled from the spec: `SetColorRaw` (body in the missing
Preference.cpp) requires kind `Color` (fatal otherwise), replacing only
the payload triple. -/
def SetColorRaw (p : Preference) (value : Color) : Option Preference :=
  if p.m_type = PreferenceType.Color then
    some { p with m_value := PreferenceValue.VColor value }
  else none

/-- Modelled from the spec: `SetColor` (body in the missing
Preference.cpp) normalizes the toolkit-native color to the internal
triple and stores it, requiring kind `Color` (fatal otherwise). -/
def SetColor (p : Preference) (value : GdkColor) : Option Preference :=
  if p.m_type = PreferenceType.Color then
    some { p with m_value := PreferenceValue.VColor ⟨value.red, value.green, value.blue⟩ }
  else none

/-- Modelled from the spec: `HasUnit` (body in the missing Preference.cpp)
reports whether a non-default unit was attached; the class stores nothing
besides `m_unit` (default `UNIT_COUNTS`, Preference.h line 205) that could
record attachment, so it compares the stored descriptor to the default. -/
def HasUnit (p : Preference) : Bool := p.m_unit.type ≠ UnitType.UNIT_COUNTS

/-- Modelled from the spec: `GetUnit` exposes the stored unit descriptor
(body in the missing Preference.cpp). -/
def GetUnit (p : Preference) : UnitDesc := p.m_unit

/-- Modelled from the spec: `MoveFrom` (declared Preference.h line 196,
body in the missing Preference.cpp) relocates the source's live payload
into the destination, copies the kind and the metadata, and forces the
source's kind to `None`, leaving its storage with no live object. Returns
(new destination, new source). -/
def MoveFrom (src : Preference) : Preference × Preference :=
  ({ m_identifier := src.m_identifier, m_label := src.m_label,
     m_description := src.m_description, m_type := src.m_type,
     m_value := src.m_value, m_isVisible := src.m_isVisible, m_unit := src.m_unit },
   { src with m_type := PreferenceType.None, m_value := PreferenceValue.VNone })

/-- Move construction `Preference a{std::move(b)}` (Preference.h, lines
140-143): the new object is built by `MoveFrom(b)`. -/
def moveConstruct (b : Preference) : Preference × Preference := MoveFrom b

/-- Move assignment `a = std::move(b)` (Preference.h, lines 146-151):
`CleanUp()` destroys the destination's live payload, then `MoveFrom(b)`
overwrites every field of the destination, so the result does not depend
on the destination's prior state. -/
def moveAssign (_a b : Preference) : Preference × Preference := MoveFrom b

end Preference

/-- Decimal digits of a natural number, most significant first; fuel-based
recursion on the number of digits. -/
def natDigitsAux : Nat → Nat → List Char
  | 0, _ => []
  | fuel + 1, n => if n = 0 then [] else natDigitsAux fuel (n / 10) ++ [Nat.digitChar (n % 10)]

/-- Decimal rendering of a natural number as a character list. -/
def natDigits (n : Nat) : List Char :=
  if n = 0 then ['0'] else natDigitsAux (n + 1) n

/-- Fuel-bounded decimal expansion of the fraction `r / d` with
`0 ≤ r < d`: repeatedly multiply the remainder by ten and emit the integer
digit, stopping when the remainder hits zero or the fuel runs out. -/
def fracDigitsAux : Nat → Nat → Nat → List Char
  | 0, _, _ => []
  | fuel + 1, r, d =>
    if r = 0 then []
    else Nat.digitChar (r * 10 / d) :: fracDigitsAux fuel (r * 10 % d) d

/-- Locale-independent decimal rendering of a rational: optional minus
sign, the integer digits, then a point and the fractional digits (up to
17) when the fractional part is nonzero. -/
def renderReal (q : ℚ) : String :=
  String.mk ((if q.num < 0 then ['-'] else []) ++ natDigits (q.num.natAbs / q.den) ++
    (if q.num.natAbs % q.den = 0 then []
     else '.' :: fracDigitsAux 17 (q.num.natAbs % q.den) q.den))

/-- The `(r,g,b)` textual form of a color. -/
def renderColor (c : Color) : String :=
  String.mk (['('] ++ natDigits c.m_r ++ [','] ++ natDigits c.m_g ++ [','] ++
    natDigits c.m_b ++ [')'])

namespace Preference

/-- Modelled from the spec: `ToString` (declared Preference.h line 161,
body in the missing Preference.cpp). Boolean renders as "true"/"false",
String as the text itself, Real as a locale-independent decimal rendering,
Color as the `(r,g,b)` textual form; the unreachable `None` kind is the
fatal path (`none`). -/
def ToString (p : Preference) : Option String :=
  match p.m_type, p.m_value with
  | PreferenceType.Boolean, PreferenceValue.VBool b => some (if b then "true" else "false")
  | PreferenceType.String, PreferenceValue.VString s => some s
  | PreferenceType.Real, PreferenceValue.VReal q => some (renderReal q)
  | PreferenceType.Color, PreferenceValue.VColor c => some (renderColor c)
  | _, _ => none

end Preference

namespace impl

/-- `impl::PreferenceBuilder` (Preference.h, lines 210-222): move-only
wrapper exclusively owning the cell it configures. -/
structure PreferenceBuilder where
  m_pref : Preference
deriving DecidableEq

/-- Modelled from the spec: `IsVisible` (declared Preference.h line 216,
body in the missing Preference.cpp) sets the visibility flag and returns
the builder by move for further chaining. -/
def PreferenceBuilder.IsVisible (b : PreferenceBuilder) (v : Bool) : PreferenceBuilder :=
  ⟨{ b.m_pref with m_isVisible := v }⟩

/-- Modelled from the spec: `WithUnit` (declared Preference.h line 217,
body in the missing Preference.cpp) attaches the unit descriptor for the
given unit type and returns the builder by move. -/
def PreferenceBuilder.WithUnit (b : PreferenceBuilder) (t : UnitType) : PreferenceBuilder :=
  ⟨{ b.m_pref with m_unit := ⟨t⟩ }⟩

/-- Modelled from the spec: `Build` (declared Preference.h line 218, body
in the missing Preference.cpp) yields the finished cell by move. -/
def PreferenceBuilder.Build (b : PreferenceBuilder) : Preference := b.m_pref

end impl

namespace Preference

/-- Modelled from the spec: the `Preference::New` factory overload for
bool (declared Preference.h line 132, body in the missing Preference.cpp)
wraps a freshly constructed Boolean cell in a builder. -/
def NewBool (i l d : String) (v : Bool) : impl.PreferenceBuilder := ⟨mkBool i l d v⟩

/-- Modelled from the spec: the `Preference::New` factory overload for
double (declared Preference.h line 133). -/
def NewReal (i l d : String) (v : ℚ) : impl.PreferenceBuilder := ⟨mkReal i l d v⟩

/-- Modelled from the spec: the `Preference::New` factory overload for
`const char*` (declared Preference.h line 134). -/
def NewCString (i l d : String) (v : String) : impl.PreferenceBuilder := ⟨mkCString i l d v⟩

/-- Modelled from the spec: the `Preference::New` factory overload for
`std::string` (declared Preference.h line 135). -/
def NewString (i l d : String) (v : String) : impl.PreferenceBuilder := ⟨mkString i l d v⟩

/-- Modelled from the spec: the `Preference::New` factory overload for
`Gdk::Color` (declared Preference.h line 136). -/
def NewColor (i l d : String) (v : GdkColor) : impl.PreferenceBuilder := ⟨mkColor i l d v⟩

end Preference

/-- One successful kind-matching setter call on a cell. -/
inductive SetStep : Preference → Preference → Prop where
  | bool {p p' : Preference} {v : Bool} (h : Preference.SetBool p v = some p') : SetStep p p'
  | real {p p' : Preference} {v : ℚ} (h : Preference.SetReal p v = some p') : SetStep p p'
  | str {p p' : Preference} {v : String} (h : Preference.SetString p v = some p') : SetStep p p'
  | color {p p' : Preference} {v : GdkColor} (h : Preference.SetColor p v = some p') : SetStep p p'
  | colorRaw {p p' : Preference} {v : Color} (h : Preference.SetColorRaw p v = some p') :
      SetStep p p'

/-- A finite sequence of successful setter calls. -/
def SetChain : Preference → Preference → Prop := Relation.ReflTransGen SetStep

/-- The kind that the live payload object in the storage region has. -/
def kindOf : PreferenceValue → PreferenceType
  | PreferenceValue.VBool _ => PreferenceType.Boolean
  | PreferenceValue.VString _ => PreferenceType.String
  | PreferenceValue.VReal _ => PreferenceType.Real
  | PreferenceValue.VColor _ => PreferenceType.Color
  | PreferenceValue.VNone => PreferenceType.None

/-- Invariant I1 restricted to non-moved-from cells: the discriminant and
the live payload agree and the cell is not in the `None` state. Every cell
obtainable from the public interface without moving out of it satisfies
this. -/
def WellFormed (p : Preference) : Prop :=
  kindOf p.m_value = p.m_type ∧ p.m_type ≠ PreferenceType.None

/-- Cells observable through the public interface without having been
moved out of: produced by one of the five factory constructors, optionally
reconfigured through the builder operations, mutated by successful setter
calls, or obtained as the destination of a move transfer. -/
inductive Reachable : Preference → Prop where
  | ofBool (i l d : String) (v : Bool) : Reachable (Preference.mkBool i l d v)
  | ofString (i l d s : String) : Reachable (Preference.mkString i l d s)
  | ofCString (i l d s : String) : Reachable (Preference.mkCString i l d s)
  | ofReal (i l d : String) (q : ℚ) : Reachable (Preference.mkReal i l d q)
  | ofColor (i l d : String) (c : GdkColor) : Reachable (Preference.mkColor i l d c)
  | visible {p : Preference} (v : Bool) :
      Reachable p → Reachable { p with m_isVisible := v }
  | withUnit {p : Preference} (u : UnitType) :
      Reachable p → Reachable { p with m_unit := ⟨u⟩ }
  | setter {p p' : Preference} : Reachable p → SetStep p p' → Reachable p'
  | moveDest {p : Preference} : Reachable p → Reachable (Preference.MoveFrom p).1

/-- The decimal digit list of a natural number is never empty. -/
theorem natDigits_ne_nil (n : Nat) : natDigits n ≠ [] := by
  unfold natDigits
  split
  · simp
  · rename_i h
    unfold natDigitsAux
    rw [if_neg h]
    simp

/-- A string built from a nonempty character list is nonempty. -/
theorem mk_ne_empty {l : List Char} (h : l ≠ []) : String.mk l ≠ "" := by
  intro hc
  exact h (congrArg String.data hc)

/-- The decimal rendering of a rational is never the empty string. -/
theorem renderReal_ne_empty (q : ℚ) : renderReal q ≠ "" := by
  apply mk_ne_empty
  intro hc
  rcases List.append_eq_nil.mp hc with ⟨hc1, _⟩
  rcases List.append_eq_nil.mp hc1 with ⟨_, hd⟩
  exact natDigits_ne_nil _ hd

/-- The textual form of a color is never the empty string. -/
theorem renderColor_ne_empty (c : Color) : renderColor c ≠ "" := by
  apply mk_ne_empty
  intro hc
  simp [List.append_eq_nil] at hc

/-- A successful setter call leaves every field other than the payload
unchanged. -/
theorem setStep_fields {p p' : Preference} (h : SetStep p p') :
    p'.m_type = p.m_type ∧ p'.m_identifier = p.m_identifier ∧ p'.m_label = p.m_label ∧
    p'.m_description = p.m_description ∧ p'.m_isVisible = p.m_isVisible ∧
    p'.m_unit = p.m_unit := by
  cases h with
  | bool h =>
      unfold Preference.SetBool at h
      split at h
      · injection h with h2
        subst h2
        exact ⟨rfl, rfl, rfl, rfl, rfl, rfl⟩
      · exact Option.noConfusion h
  | real h =>
      unfold Preference.SetReal at h
      split at h
      · injection h with h2
        subst h2
        exact ⟨rfl, rfl, rfl, rfl, rfl, rfl⟩
      · exact Option.noConfusion h
  | str h =>
      unfold Preference.SetString at h
      split at h
      · injection h with h2
        subst h2
        exact ⟨rfl, rfl, rfl, rfl, rfl, rfl⟩
      · exact Option.noConfusion h
  | color h =>
      unfold Preference.SetColor at h
      split at h
      · injection h with h2
        subst h2
        exact ⟨rfl, rfl, rfl, rfl, rfl, rfl⟩
      · exact Option.noConfusion h
  | colorRaw h =>
      unfold Preference.SetColorRaw at h
      split at h
      · injection h with h2
        subst h2
        exact ⟨rfl, rfl, rfl, rfl, rfl, rfl⟩
      · exact Option.noConfusion h

/-- No cell reachable through the public interface is in the moved-from
`None` state. -/
theorem reachable_type_ne_none {p : Preference} (h : Reachable p) :
    p.m_type ≠ PreferenceType.None := by
  induction h with
  | ofBool i l d v => intro hc; exact PreferenceType.noConfusion hc
  | ofString i l d s => intro hc; exact PreferenceType.noConfusion hc
  | ofCString i l d s => intro hc; exact PreferenceType.noConfusion hc
  | ofReal i l d q => intro hc; exact PreferenceType.noConfusion hc
  | ofColor i l d c => intro hc; exact PreferenceType.noConfusion hc
  | visible v hp ih => exact ih
  | withUnit u hp ih => exact ih
  | setter hp hstep ih => rw [(setStep_fields hstep).1]; exact ih
  | moveDest hp ih => exact ih

/-- C1: for every kind K in Boolean, String, Real, Color, constructing a
Preference with the K-typed constructor (identifier, label, description,
default value) and reading it back with the matching K-typed accessor
(GetBool, GetString, GetReal, GetColorRaw) returns the default value. -/
theorem C1_typed_round_trip (i l d : String) (b : Bool) (s : String) (q : ℚ) (g : GdkColor) :
    (Preference.mkBool i l d b).GetBool = some b ∧
    (Preference.mkString i l d s).GetString = some s ∧
    (Preference.mkCString i l d s).GetString = some s ∧
    (Preference.mkReal i l d q).GetReal = some q ∧
    (Preference.mkColor i l d g).GetColorRaw = some ⟨g.red, g.green, g.blue⟩ :=
  ⟨rfl, rfl, rfl, rfl, rfl⟩

/-- C2: after the move transfer `a = std::move(b)` the destination has
the kind, payload, identifier, label, description, visibility flag and
unit that `b` had before the move; `b` is left with kind `None` and every
typed accessor on it hits the fatal path; move construction produces the
same result as move assignment. -/
theorem C2_move_transfer (a b : Preference) :
    (Preference.moveAssign a b).1.m_type = b.m_type ∧
    (Preference.moveAssign a b).1.m_value = b.m_value ∧
    (Preference.moveAssign a b).1.m_identifier = b.m_identifier ∧
    (Preference.moveAssign a b).1.m_label = b.m_label ∧
    (Preference.moveAssign a b).1.m_description = b.m_description ∧
    (Preference.moveAssign a b).1.m_isVisible = b.m_isVisible ∧
    (Preference.moveAssign a b).1.m_unit = b.m_unit ∧
    (Preference.moveAssign a b).2.GetType = PreferenceType.None ∧
    (Preference.moveAssign a b).2.GetBool = none ∧
    (Preference.moveAssign a b).2.GetReal = none ∧
    (Preference.moveAssign a b).2.GetString = none ∧
    (Preference.moveAssign a b).2.GetColorRaw = none ∧
    (Preference.moveAssign a b).2.GetColor = none ∧
    Preference.moveConstruct b = Preference.moveAssign a b :=
  ⟨rfl, rfl, rfl, rfl, rfl, rfl, rfl, rfl, rfl, rfl, rfl, rfl, rfl, rfl⟩

/-- C3: on a cell whose kind differs from the kind an accessor or setter
is typed for, the call takes the fatal type-contract-violation path
(modelled as `none`) instead of returning or coercing a value, for every
mismatched pair of kinds. -/
theorem C3_mismatched_access_fatal (p : Preference) :
    (p.m_type ≠ PreferenceType.Boolean → p.GetBool = none ∧ ∀ v, p.SetBool v = none) ∧
    (p.m_type ≠ PreferenceType.Real → p.GetReal = none ∧ ∀ v, p.SetReal v = none) ∧
    (p.m_type ≠ PreferenceType.String → p.GetString = none ∧ ∀ v, p.SetString v = none) ∧
    (p.m_type ≠ PreferenceType.Color →
      p.GetColorRaw = none ∧ p.GetColor = none ∧
      (∀ v, p.SetColor v = none) ∧ ∀ v, p.SetColorRaw v = none) := by
  obtain ⟨i, l, d, t, val, vis, u⟩ := p
  refine ⟨fun h => ⟨?_, fun v => ?_⟩, fun h => ⟨?_, fun v => ?_⟩, fun h => ⟨?_, fun v => ?_⟩,
    fun h => ⟨?_, ?_, fun v => ?_, fun v => ?_⟩⟩ <;>
    cases t <;> cases val <;>
      simp_all [Preference.GetBool, Preference.SetBool, Preference.GetReal,
        Preference.SetReal, Preference.GetString, Preference.SetString,
        Preference.GetColorRaw, Preference.GetColor, Preference.SetColor,
        Preference.SetColorRaw]

/-- C3 witness: a Real cell rejects the Boolean accessor and setter. -/
theorem C3_mismatched_access_fatal_witness :
    (Preference.mkReal "a" "b" "c" 1).GetBool = none ∧
    (Preference.mkReal "a" "b" "c" 1).SetBool true = none :=
  ⟨((C3_mismatched_access_fatal (Preference.mkReal "a" "b" "c" 1)).1 (by decide)).1,
   ((C3_mismatched_access_fatal (Preference.mkReal "a" "b" "c" 1)).1 (by decide)).2 true⟩

/-- C4: over any sequence of successful setter calls, the kind reported
by GetType never changes: a setter only replaces the payload value. -/
theorem C4_kind_never_changes {p q : Preference} (h : SetChain p q) :
    q.GetType = p.GetType := by
  induction h with
  | refl => rfl
  | tail hchain hstep ih =>
      have h1 := (setStep_fields hstep).1
      unfold Preference.GetType at ih ⊢
      rw [h1]
      exact ih

/-- C4 witness: a Real cell set from 1 to 5/2 still reports kind Real. -/
theorem C4_kind_never_changes_witness :
    SetChain (Preference.mkReal "gain" "Gain" "g" 1)
      { Preference.mkReal "gain" "Gain" "g" 1 with
          m_value := PreferenceValue.VReal (mkRat 5 2) } ∧
    ({ Preference.mkReal "gain" "Gain" "g" 1 with
        m_value := PreferenceValue.VReal (mkRat 5 2) } : Preference).GetType
      = (Preference.mkReal "gain" "Gain" "g" 1).GetType :=
  ⟨Relation.ReflTransGen.single (SetStep.real (v := mkRat 5 2) rfl),
   C4_kind_never_changes (Relation.ReflTransGen.single (SetStep.real (v := mkRat 5 2) rfl))⟩

/-- C5: ToString is total over every well-formed (non-moved-from) cell
and, being a function, deterministic; a Boolean cell renders as
"true"/"false", a String cell yields its text, the Real cell holding 7/2
renders as "3.5", the Color cell (255,0,128) renders as "(255,0,128)",
and the result is never the empty string for the Boolean, Real and Color
kinds. -/
theorem C5_to_string_total (p : Preference) (i l d txt : String)
    (hp : WellFormed p) :
    (∃ s, p.ToString = some s) ∧
    ((p.m_type = PreferenceType.Boolean ∨ p.m_type = PreferenceType.Real ∨
        p.m_type = PreferenceType.Color) →
      ∀ s, p.ToString = some s → s ≠ "") ∧
    (Preference.mkBool i l d true).ToString = some "true" ∧
    (Preference.mkBool i l d false).ToString = some "false" ∧
    (Preference.mkString i l d txt).ToString = some txt ∧
    (Preference.mkReal i l d (7/2)).ToString = some "3.5" ∧
    (Preference.mkColor i l d ⟨255, 0, 128⟩).ToString = some "(255,0,128)" := by
  obtain ⟨hk1, hk2⟩ := hp
  obtain ⟨pi, pl, pd, t, val, vis, u⟩ := p
  dsimp only at hk1 hk2
  refine ⟨?_, ?_, rfl, rfl, rfl, ?_, ?_⟩
  · cases val with
    | VBool b => dsimp only [kindOf] at hk1; subst hk1; exact ⟨_, rfl⟩
    | VString s => dsimp only [kindOf] at hk1; subst hk1; exact ⟨_, rfl⟩
    | VReal q => dsimp only [kindOf] at hk1; subst hk1; exact ⟨_, rfl⟩
    | VColor c => dsimp only [kindOf] at hk1; subst hk1; exact ⟨_, rfl⟩
    | VNone => dsimp only [kindOf] at hk1; subst hk1; exact absurd rfl hk2
  · intro hk s hs
    cases t <;> cases val <;>
      simp_all [Preference.ToString] <;>
      first
        | (subst hs; exact renderReal_ne_empty _)
        | (subst hs; exact renderColor_ne_empty _)
        | (rename_i b; subst hs; cases b <;> decide)
  · have h : (7 / 2 : ℚ) = mkRat 7 2 := by rw [Rat.mkRat_eq_div]; norm_num
    rw [h]
    rfl
  · rfl

/-- C5 witness: a concrete Boolean cell is well-formed and ToString on it
succeeds. -/
theorem C5_to_string_total_witness :
    WellFormed (Preference.mkBool "x" "y" "z" true) ∧
    (∃ s, (Preference.mkBool "x" "y" "z" true).ToString = some s) :=
  ⟨⟨rfl, by decide⟩,
   (C5_to_string_total (Preference.mkBool "x" "y" "z" true) "x" "y" "z" "t"
      ⟨rfl, by decide⟩).1⟩

/-- C6: builder chaining is order-independent over the disjoint fields
visibility and unit (shown for an arbitrary builder and hence for every
factory input, and tied to a concrete factory), and when the same method
is called more than once the last call for that field wins. -/
theorem C6_builder_order_independent (b : impl.PreferenceBuilder) (i l d : String)
    (bv v v1 v2 : Bool) (u u1 u2 : UnitType) :
    ((b.IsVisible v).WithUnit u).Build = ((b.WithUnit u).IsVisible v).Build ∧
    (((Preference.NewBool i l d bv).IsVisible v).WithUnit u).Build
      = (((Preference.NewBool i l d bv).WithUnit u).IsVisible v).Build ∧
    (b.IsVisible v1).IsVisible v2 = b.IsVisible v2 ∧
    (b.WithUnit u1).WithUnit u2 = b.WithUnit u2 :=
  ⟨rfl, rfl, rfl, rfl⟩

/-- C7 counterexample: a builder chain that calls WithUnit with the
default counts unit yields a cell on which HasUnit is false, refuting the
claim that HasUnit is true after any WithUnit call. -/
theorem C7_counterexample :
    (((Preference.NewBool "x" "y" "z" true).WithUnit UnitType.UNIT_COUNTS).Build).HasUnit
      = false := rfl

/-- C7 (amended): HasUnit is false for every factory path without a
WithUnit call, and true after a WithUnit call whose unit type is not the
default counts unit (also when further IsVisible chaining follows). -/
theorem C7_has_unit_amended (i l d txt : String) (bv : Bool) (q : ℚ) (g : GdkColor)
    (b : impl.PreferenceBuilder) (u : UnitType) (v : Bool)
    (hu : u ≠ UnitType.UNIT_COUNTS) :
    (Preference.NewBool i l d bv).Build.HasUnit = false ∧
    (Preference.NewString i l d txt).Build.HasUnit = false ∧
    (Preference.NewCString i l d txt).Build.HasUnit = false ∧
    (Preference.NewReal i l d q).Build.HasUnit = false ∧
    (Preference.NewColor i l d g).Build.HasUnit = false ∧
    ((b.WithUnit u).Build).HasUnit = true ∧
    (((b.WithUnit u).IsVisible v).Build).HasUnit = true := by
  refine ⟨rfl, rfl, rfl, rfl, rfl, ?_, ?_⟩ <;>
    simp [Preference.HasUnit, impl.PreferenceBuilder.WithUnit,
      impl.PreferenceBuilder.IsVisible, impl.PreferenceBuilder.Build, hu]

/-- C7 witness: attaching the volts unit makes HasUnit true. -/
theorem C7_has_unit_amended_witness :
    UnitType.UNIT_VOLTS ≠ UnitType.UNIT_COUNTS ∧
    (((Preference.NewBool "x" "y" "z" true).WithUnit UnitType.UNIT_VOLTS).Build).HasUnit
      = true :=
  ⟨by decide,
   (C7_has_unit_amended "x" "y" "z" "t" true 1 ⟨0, 0, 0⟩
      (Preference.NewBool "x" "y" "z" true) UnitType.UNIT_VOLTS true
      (by decide)).2.2.2.2.2.1⟩

/-- C8: every factory constructor yields a cell of a concrete non-None
kind, and no cell reachable through the public interface (factories,
builder configuration, successful setters, move destinations) ever
reports the None kind. -/
theorem C8_none_never_public (i l d s : String) (bv : Bool) (q : ℚ) (c : GdkColor)
    {p : Preference} (hp : Reachable p) :
    (Preference.mkBool i l d bv).GetType = PreferenceType.Boolean ∧
    (Preference.mkString i l d s).GetType = PreferenceType.String ∧
    (Preference.mkCString i l d s).GetType = PreferenceType.String ∧
    (Preference.mkReal i l d q).GetType = PreferenceType.Real ∧
    (Preference.mkColor i l d c).GetType = PreferenceType.Color ∧
    p.GetType ≠ PreferenceType.None :=
  ⟨rfl, rfl, rfl, rfl, rfl, reachable_type_ne_none hp⟩

/-- C8 witness: a concrete factory-constructed cell is reachable and does
not report the None kind. -/
theorem C8_none_never_public_witness :
    Reachable (Preference.mkBool "a" "b" "c" true) ∧
    (Preference.mkBool "a" "b" "c" true).GetType ≠ PreferenceType.None :=
  ⟨Reachable.ofBool "a" "b" "c" true,
   (C8_none_never_public "a" "b" "c" "s" true 1 ⟨0, 0, 0⟩
      (Reachable.ofBool "a" "b" "c" true)).2.2.2.2.2⟩

/-- C9: the owned-string and borrowed-literal text constructors produce
equal String-kind cells, indistinguishable through every public
observation. -/
theorem C9_text_overloads_equiv (i l d s : String) :
    Preference.mkString i l d s = Preference.mkCString i l d s ∧
    (Preference.mkString i l d s).GetType = PreferenceType.String ∧
    (Preference.mkCString i l d s).GetType = PreferenceType.String ∧
    (Preference.mkString i l d s).GetString = (Preference.mkCString i l d s).GetString ∧
    (Preference.mkString i l d s).ToString = (Preference.mkCString i l d s).ToString ∧
    (Preference.mkString i l d s).GetIdentifier
      = (Preference.mkCString i l d s).GetIdentifier ∧
    (Preference.mkString i l d s).GetLabel = (Preference.mkCString i l d s).GetLabel ∧
    (Preference.mkString i l d s).GetDescription
      = (Preference.mkCString i l d s).GetDescription ∧
    (Preference.mkString i l d s).GetIsVisible
      = (Preference.mkCString i l d s).GetIsVisible :=
  ⟨rfl, rfl, rfl, rfl, rfl, rfl, rfl, rfl, rfl⟩

/-- C10: a successful kind-matching setter call modifies only the stored
payload: identifier, label, description, visibility flag and unit
descriptor compare equal before and after the call. -/
theorem C10_setter_frame {p p' : Preference} (h : SetStep p p') :
    p'.GetIdentifier = p.GetIdentifier ∧ p'.GetLabel = p.GetLabel ∧
    p'.GetDescription = p.GetDescription ∧ p'.GetIsVisible = p.GetIsVisible ∧
    p'.GetUnit = p.GetUnit :=
  ⟨(setStep_fields h).2.1, (setStep_fields h).2.2.1, (setStep_fields h).2.2.2.1,
   (setStep_fields h).2.2.2.2.1, (setStep_fields h).2.2.2.2.2⟩

/-- C10 witness: setting a Boolean cell from true to false leaves its
unit descriptor unchanged. -/
theorem C10_setter_frame_witness :
    Preference.SetBool (Preference.mkBool "a" "b" "c" true) false
      = some { Preference.mkBool "a" "b" "c" true with
                 m_value := PreferenceValue.VBool false } ∧
    ({ Preference.mkBool "a" "b" "c" true with
         m_value := PreferenceValue.VBool false } : Preference).GetUnit
      = (Preference.mkBool "a" "b" "c" true).GetUnit :=
  have hstep : SetStep (Preference.mkBool "a" "b" "c" true)
      { Preference.mkBool "a" "b" "c" true with m_value := PreferenceValue.VBool false } :=
    SetStep.bool (v := false) rfl
  ⟨rfl, (C10_setter_frame hstep).2.2.2.2⟩

end glsc
